import Mathlib

/-!
Shallow embedding of the multi-backend Solana remote-signing adapter layer
(packages core / vault / privy / turnkey) and proofs about its
signature-normalisation, batching, configuration-validation and
error-classification behaviour.

Conventions of the embedding:
* JavaScript strings are modelled as `List Char`, byte arrays as `List Nat`.
* A JS function that can `throw` is modelled as `Except JsError _`;
  `try/catch` becomes a `match` on that `Except`.
* One network interaction (`fetch` + status check + `response.json()`) is
  modelled by an outcome value: the fetch may reject, return a non-ok
  status, return an ok status with an undecodable body, or return a parsed
  body.  The adapter code downstream of the network call is translated
  from the TypeScript source.
* `async`/`Promise.all` batching is modelled by `promiseAll`, which places
  each result at the index of its task (exactly the `Promise.all`
  contract, independent of completion order) and rejects if any task
  rejects.
-/

namespace SolanaSigners

/-- Error codes of `SignerErrorCode` (core errors.ts). -/
inductive ErrCode where
  | invalidPrivateKey
  | invalidPublicKey
  | signingFailed
  | remoteApiError
  | httpError
  | serializationError
  | parsingError
  | configError
  | notAvailable
  | ioError
  | signerNotInitialized
  | expectedSolanaSigner
deriving DecidableEq, Repr

/-- A thrown JavaScript value: either a `SignerError` (code, message,
optionally a `cause`) produced by `throwSignerError`, or some other raw
exception (TypeError, SyntaxError, SolanaError from library code, ...)
identified by a tag. -/
inductive JsError where
  | raw (tag : String)
  | signer (code : ErrCode) (message : String)
  | signerCause (code : ErrCode) (message : String) (cause : JsError)
deriving DecidableEq, Repr

/-- The `SignerErrorCode` of a thrown value, if it is a `SignerError`. -/
def JsError.code : JsError → Option ErrCode
  | .raw _ => none
  | .signer c _ => some c
  | .signerCause c _ _ => some c

/-- Byte arrays (`Uint8Array` / `Buffer`); each entry is one byte value. -/
abbrev Bytes := List Nat

/-- JavaScript strings, modelled by their character list. -/
abbrev Str := List Char

/-- Big-endian numeric value of a byte array. -/
def beVal (bs : Bytes) : Nat := bs.foldl (fun acc b => 256 * acc + b) 0

/-- Value of one hexadecimal digit character. -/
def hexCharVal (c : Char) : Option Nat :=
  if '0' ≤ c ∧ c ≤ '9' then some (c.toNat - '0'.toNat)
  else if 'a' ≤ c ∧ c ≤ 'f' then some (c.toNat - 'a'.toNat + 10)
  else if 'A' ≤ c ∧ c ≤ 'F' then some (c.toNat - 'A'.toNat + 10)
  else none

/-- Node `Buffer.from(hex, 'hex')`: decodes hex pairs, stopping (and
truncating) at the first incomplete or invalid pair. -/
def nodeHexDecode : Str → Bytes
  | c1 :: c2 :: rest =>
    match hexCharVal c1, hexCharVal c2 with
    | some a, some b => (16 * a + b) :: nodeHexDecode rest
    | _, _ => []
  | _ => []

/-- `getBase16Encoder().encode` of `@solana/codecs-strings`: asserts every
character is a hex digit (modelled by `none`, the thrown `SolanaError`),
then parses greedy pairs; a trailing lone digit becomes its own byte. -/
def base16Decode : Str → Option Bytes
  | [] => some []
  | [c] => (hexCharVal c).map (fun a => [a])
  | c1 :: c2 :: rest =>
    match hexCharVal c1, hexCharVal c2, base16Decode rest with
    | some a, some b, some bs => some ((16 * a + b) :: bs)
    | _, _, _ => none

/-- Value of one standard-base64 alphabet character. -/
def base64CharVal (c : Char) : Option Nat :=
  if 'A' ≤ c ∧ c ≤ 'Z' then some (c.toNat - 'A'.toNat)
  else if 'a' ≤ c ∧ c ≤ 'z' then some (c.toNat - 'a'.toNat + 26)
  else if '0' ≤ c ∧ c ≤ '9' then some (c.toNat - '0'.toNat + 52)
  else if c = '+' then some 62
  else if c = '/' then some 63
  else none

/-- A character that may appear in a base64 body (alphabet or padding). -/
def isB64Char (c : Char) : Bool := (base64CharVal c).isSome || c = '='

/-- Map base64 characters to their 6-bit values; `none` on a foreign
character (the decoder's validity assertion). -/
def b64CharVals : Str → Option (List Nat)
  | [] => some []
  | c :: rest =>
    match base64CharVal c, b64CharVals rest with
    | some v, some vs => some (v :: vs)
    | _, _ => none

/-- Reassemble 6-bit groups into bytes; a lone trailing group is invalid. -/
def b64DecodeVals : List Nat → Option Bytes
  | [] => some []
  | [_] => none
  | [v1, v2] => some [(v1 * 4 + v2 / 16) % 256]
  | [v1, v2, v3] => some [(v1 * 4 + v2 / 16) % 256, ((v2 % 16) * 16 + v3 / 4) % 256]
  | v1 :: v2 :: v3 :: v4 :: rest =>
    match b64DecodeVals rest with
    | some bs =>
      some ((v1 * 4 + v2 / 16) % 256 :: ((v2 % 16) * 16 + v3 / 4) % 256 ::
            ((v3 % 4) * 64 + v4) % 256 :: bs)
    | none => none

/-- `getBase64Encoder().encode`: base64 string to bytes, tolerating
trailing padding; `none` models the thrown `SolanaError` on invalid input. -/
def base64Decode (s : Str) : Option Bytes :=
  match b64CharVals ((s.reverse.dropWhile (fun c => c = '=')).reverse) with
  | some vs => b64DecodeVals vs
  | none => none

/-- One character of the URL-safe base64 alphabet. -/
def base64urlChar (n : Nat) : Char :=
  if n < 26 then Char.ofNat ('A'.toNat + n)
  else if n < 52 then Char.ofNat ('a'.toNat + n - 26)
  else if n < 62 then Char.ofNat ('0'.toNat + n - 52)
  else if n = 62 then '-'
  else '_'

/-- `Buffer.toString('base64url')`: unpadded URL-safe base64 encoding. -/
def base64urlEncode : Bytes → Str
  | [] => []
  | [b1] => [base64urlChar (b1 / 4), base64urlChar ((b1 % 4) * 16)]
  | [b1, b2] =>
    [base64urlChar (b1 / 4), base64urlChar ((b1 % 4) * 16 + b2 / 16),
     base64urlChar ((b2 % 16) * 4)]
  | b1 :: b2 :: b3 :: rest =>
    base64urlChar (b1 / 4) :: base64urlChar ((b1 % 4) * 16 + b2 / 16) ::
    base64urlChar ((b2 % 16) * 4 + b3 / 64) :: base64urlChar (b3 % 64) ::
    base64urlEncode rest

/-- Minimal big-endian byte representation of a natural number
(empty for zero), as produced by noble's hex round-trip. -/
def natBEBytes (n : Nat) : Bytes :=
  if h : n = 0 then [] else natBEBytes (n / 256) ++ [n % 256]
termination_by n
decreasing_by exact Nat.div_lt_self (Nat.pos_of_ne_zero h) (by norm_num)

/-- noble `numberToBytesBE(n, len)`: big-endian bytes of `n`, left-padded
with zeros to `len` bytes (longer if `n` does not fit). -/
def numberToBytesBE (n len : Nat) : Bytes :=
  let bs := natBEBytes n
  List.replicate (len - bs.length) 0 ++ bs


/-! ## Core utilities (packages/core/src/utils.ts) -/

/-- A `SignatureDictionary` value as observed by callers: its entries and
whether `Object.freeze` was applied to it (a frozen object cannot be
mutated afterwards; the flag models that JavaScript guarantee). -/
structure SignatureDictionary where
  entries : List (String × Bytes)
  frozen : Bool
deriving DecidableEq, Repr

/-- `createSignatureDictionary`: `assertIsAddress` (throws a raw
`SolanaError` when the address is invalid, per the injected validity
predicate), the JS-falsiness check on `signature` (`none` models
`undefined`/`null`; any `Uint8Array` is truthy), then
`Object.freeze({[signerAddress]: signature})`. -/
def createSignatureDictionary (validAddr : String → Bool) (signature : Option Bytes)
    (signerAddress : String) : Except JsError SignatureDictionary :=
  if ¬ validAddr signerAddress then
    .error (.raw "SolanaError: invalid base58 address")
  else
    match signature with
    | none =>
      .error (.signer .signingFailed ("No signature found for address " ++ signerAddress))
    | some sig => .ok ⟨[(signerAddress, sig)], true⟩

/-- `extractSignatureFromWireTransaction`: the wire transaction has been
decoded by the library transaction decoder into its address-keyed
signature map (`decodedSignatures`); the function looks up the requesting
address and defers to `createSignatureDictionary`. -/
def extractSignatureFromWireTransaction (validAddr : String → Bool)
    (decodedSignatures : List (String × Bytes)) (signerAddress : String) :
    Except JsError SignatureDictionary :=
  if ¬ validAddr signerAddress then
    .error (.raw "SolanaError: invalid base58 address")
  else
    match decodedSignatures.lookup signerAddress with
    | none =>
      .error (.signer .signingFailed ("No signature found for address " ++ signerAddress))
    | some sig => createSignatureDictionary validAddr (some sig) signerAddress

/-! ## Batch combinator (`Promise.all(items.map(...))`) -/

/-- `Promise.all`: the resolved array holds each task's value at the
task's own index — regardless of the order in which the tasks settle —
and the whole batch rejects if any task rejects. -/
def promiseAll {α : Type} : List (Except JsError α) → Except JsError (List α)
  | [] => .ok []
  | x :: xs =>
    match x with
    | .error e => .error e
    | .ok a =>
      match promiseAll xs with
      | .error e => .error e
      | .ok as => .ok (a :: as)

/-- `Promise.all(messages.map((m, i) => perItem(i)))` over a batch of
`n` payloads. -/
def signerBatch (perItem : Nat → Except JsError SignatureDictionary) (n : Nat) :
    Except JsError (List SignatureDictionary) :=
  promiseAll ((List.range n).map perItem)


/-! ## Vault adapter (packages/vault/src/vault-signer.ts) -/

/-- The literal version tag `"vault:v1:"` of the Vault transit engine. -/
def vaultTagStr : Str := ['v', 'a', 'u', 'l', 't', ':', 'v', '1', ':']

/-- The tag-stripping step of `extractSignatureFromVaultFormat`:
`vaultSignature.startsWith('vault:v1:') ? vaultSignature.slice(9) :
vaultSignature`. -/
def stripVaultTag (vaultSignature : Str) : Str :=
  if vaultTagStr.isPrefixOf vaultSignature then vaultSignature.drop vaultTagStr.length
  else vaultSignature

/-- `extractSignatureFromVaultFormat`: strip the optional `vault:v1:` tag,
reject an empty remainder with `PARSING_ERROR`, then base64-decode.  An
invalid base64 remainder makes the library encoder throw a raw
`SolanaError` (not wrapped by the adapter). -/
def extractSignatureFromVaultFormat (vaultSignature : Str) : Except JsError Bytes :=
  let base64Signature := stripVaultTag vaultSignature
  if base64Signature.isEmpty then
    .error (.signer .parsingError "Empty signature in Vault response")
  else
    match base64Decode base64Signature with
    | some bs => .ok bs
    | none => .error (.raw "SolanaError: invalid base64 signature")

/-- Parsed body of a Vault transit sign response (`data.signature`
optional; an absent member or empty string is JS-falsy). -/
structure VaultSignData where
  signature : Option Str
deriving DecidableEq, Repr

/-- Vault sign response envelope. -/
structure VaultSignResponse where
  data : Option VaultSignData
deriving DecidableEq, Repr

/-- Outcome of the one `fetch` inside `signWithVault`: the fetch may
reject; the response may be non-ok (the adapter then tries to parse the
error body as `{errors: [...]}`, carried here as the parse result); an ok
response body may fail to parse as JSON; or a parsed body is obtained. -/
inductive VaultFetchOutcome where
  | reject (tag : String)
  | bad (status : Nat) (errs : Option (List String))
  | undecodable (tag : String)
  | ok (resp : VaultSignResponse)
deriving DecidableEq, Repr

/-- `VaultSigner.signWithVault` downstream of the network call. -/
def signWithVault (o : VaultFetchOutcome) : Except JsError Bytes :=
  match o with
  | .reject t => .error (.signerCause .httpError "Vault network request failed" (.raw t))
  | .bad st errs =>
    let msg :=
      match errs with
      | some es =>
        if es.isEmpty then "Vault API error: " ++ toString st
        else "Vault API error: " ++ String.intercalate ", " es
      | none => "Vault API error: " ++ toString st
    .error (.signer .remoteApiError msg)
  | .undecodable t =>
    .error (.signerCause .parsingError "Failed to parse Vault signing response" (.raw t))
  | .ok resp =>
    match resp.data with
    | none => .error (.signer .remoteApiError "Missing signature in Vault response")
    | some d =>
      match d.signature with
      | none => .error (.signer .remoteApiError "Missing signature in Vault response")
      | some sigStr =>
        if sigStr.isEmpty then
          .error (.signer .remoteApiError "Missing signature in Vault response")
        else extractSignatureFromVaultFormat sigStr

/-- `VaultSigner.signMessages`: `Promise.all` over the batch; each message
is base64-encoded and signed through `signWithVault` (the backend's
response to call `i` is `outcomes i`), then wrapped by
`createSignatureDictionary` at the adapter's own address.  The optional
request-pacing delay only staggers dispatch and has no effect on values. -/
def vaultSignMessages (validAddr : String → Bool) (addr : String)
    (outcomes : Nat → VaultFetchOutcome) (msgs : List Bytes) :
    Except JsError (List SignatureDictionary) :=
  signerBatch
    (fun i =>
      match signWithVault (outcomes i) with
      | .error e => .error e
      | .ok sig => createSignatureDictionary validAddr (some sig) addr)
    msgs.length

/-- Configuration of `VaultSigner` (strings are JS strings; the required
fields are falsy when empty). -/
structure VaultSignerConfig where
  keyName : String
  publicKey : String
  requestDelayMs : Option Int
  vaultAddr : String
  vaultToken : String
deriving DecidableEq, Repr

/-- A constructed `VaultSigner` (its immutable fields). -/
structure VaultSigner where
  address : String
  vaultAddr : String
  vaultToken : String
  keyName : String
  requestDelayMs : Int
deriving DecidableEq, Repr

/-- `config.vaultAddr.replace(/\/$/, '')`: drop one trailing slash. -/
def stripTrailingSlash (s : String) : String :=
  if s.endsWith "/" then s.dropRight 1 else s

/-- `new VaultSigner(config)`: synchronous validation of every required
field (missing fields, missing public key, invalid address format via
`assertIsAddress`, negative pacing delay), each failure thrown as
`CONFIG_ERROR` before the instance exists. -/
def vaultNew (validAddr : String → Bool) (cfg : VaultSignerConfig) :
    Except JsError VaultSigner :=
  if cfg.vaultAddr = "" ∨ cfg.vaultToken = "" ∨ cfg.keyName = "" then
    .error (.signer .configError
      "Missing required configuration fields (vaultAddr, vaultToken, or keyName)")
  else if cfg.publicKey = "" then
    .error (.signer .configError "Missing required publicKey field")
  else if ¬ validAddr cfg.publicKey then
    .error (.signerCause .configError "Invalid Solana public key format"
      (.raw "SolanaError: invalid base58 address"))
  else
    let delay := (cfg.requestDelayMs.getD 0)
    if delay < 0 then
      .error (.signer .configError "requestDelayMs must not be negative")
    else
      .ok ⟨cfg.publicKey, stripTrailingSlash cfg.vaultAddr, cfg.vaultToken,
           cfg.keyName, delay⟩

/-- Parsed body of a Vault key-metadata read (`data.supports_signing`,
`data.type`, each possibly absent). -/
structure VaultKeyData where
  supports_signing : Option Bool
  type : Option String
deriving DecidableEq, Repr

/-- Vault key read response envelope. -/
structure VaultKeyReadResponse where
  data : Option VaultKeyData
deriving DecidableEq, Repr

/-- Outcome of one `fetch` + `response.json()` round trip for an adapter
that does not inspect the error body (Turnkey, Privy, Vault key read). -/
inductive HttpOutcome (α : Type) where
  | reject (tag : String)
  | bad (status : Nat) (bodyText : String)
  | undecodable (tag : String)
  | ok (resp : α)
deriving DecidableEq, Repr

/-- The body of `VaultSigner.isAvailable` inside its `try`: each step that
can throw is an `Except` step; non-ok statuses return `false`. -/
def vaultIsAvailableBody (o : HttpOutcome VaultKeyReadResponse) : Except JsError Bool :=
  match o with
  | .reject t => .error (.raw t)
  | .bad _ _ => .ok false
  | .undecodable t => .error (.raw t)
  | .ok kd =>
    .ok (match kd.data with
      | none => false
      | some d =>
        (match d.supports_signing with | some b => b | none => false) &&
        (match d.type with | some t => t = "ed25519" | none => false))

/-- `VaultSigner.isAvailable`: the surrounding `try/catch` collapses every
thrown error to `false`. -/
def vaultIsAvailable (o : HttpOutcome VaultKeyReadResponse) : Bool :=
  match vaultIsAvailableBody o with
  | .ok b => b
  | .error _ => false

/-! ## Turnkey authentication stamper (packages/turnkey/src/stamper.ts) -/

/-- `hexToBase64url(hex, paddedLength)`: even the hex string by prepending
`'0'` if needed, decode it (Node `Buffer` semantics), left-pad with zeros
up to `paddedLength` bytes, throw `CONFIG_ERROR` if the source is longer,
and base64url-encode the result. -/
def hexToBase64url (hex : Str) (paddedLength : Nat) : Except JsError Str :=
  let evenHex := if hex.length % 2 = 0 then hex else '0' :: hex
  let bytes := nodeHexDecode evenHex
  if bytes.length < paddedLength then
    .ok (base64urlEncode (List.replicate (paddedLength - bytes.length) 0 ++ bytes))
  else if bytes.length > paddedLength then
    .error (.signer .configError
      ("API to JWK conversion failed: Hex string too long: " ++ toString bytes.length ++
       " bytes (max " ++ toString paddedLength ++ ")"))
  else .ok (base64urlEncode bytes)

/-- The JWK assembled by `convertTurnkeyApiKeyToJwk` (members are the
base64url-encoded strings actually stored in the object). -/
structure Jwk where
  crv : String
  d : Str
  ext : Bool
  kty : String
  x : Str
  y : Str
deriving DecidableEq, Repr

/-- `convertTurnkeyApiKeyToJwk`: validate that the compressed public key
is exactly 33 bytes and the private scalar exactly 32 bytes (each failure
a `CONFIG_ERROR`), then inside a `try` decompress the P-256 point (the
curve library is abstracted by `decompress`, which yields the affine
coordinates or throws), pad the coordinates to 32 bytes with
`numberToBytesBE`, and build the JWK; any error thrown inside the `try`
is re-thrown as `CONFIG_ERROR "Failed to convert API key to JWK"` with
the original error as its cause. -/
def convertTurnkeyApiKeyToJwk (decompress : Str → Except String (Nat × Nat))
    (privateKeyHex publicKeyHex : Str) : Except JsError Jwk :=
  let publicKeyBytes := nodeHexDecode publicKeyHex
  if publicKeyBytes.length ≠ 33 then
    .error (.signer .configError
      ("API to JWK conversion failed: Public key must be 33 bytes (compressed P-256 format), got "
       ++ toString publicKeyBytes.length))
  else
    let privateKeyBytes := nodeHexDecode privateKeyHex
    if privateKeyBytes.length ≠ 32 then
      .error (.signer .configError
        ("API to JWK conversion failed: Private key must be 32 bytes, got "
         ++ toString privateKeyBytes.length))
    else
      let inner : Except JsError Jwk :=
        match decompress publicKeyHex with
        | .error t => .error (.raw t)
        | .ok (px, py) =>
          let xBytes := numberToBytesBE px 32
          let yBytes := numberToBytesBE py 32
          match hexToBase64url privateKeyHex 32 with
          | .error e => .error e
          | .ok dMember =>
            .ok ⟨"P-256", dMember, true, "EC", base64urlEncode xBytes, base64urlEncode yBytes⟩
      match inner with
      | .ok jwk => .ok jwk
      | .error e => .error (.signerCause .configError "Failed to convert API key to JWK" e)

/-- Result of `ApiKeyStamper.stamp`. -/
structure StampResult where
  stampHeaderName : String
  stampHeaderValue : Str
deriving DecidableEq, Repr

/-- `ApiKeyStamper.stamp(message)`: convert the key pair to a JWK, then
sign the message (ECDSA over SHA-256 through Node `crypto`, abstracted by
`signDer`, which yields the DER signature hex or throws), build the stamp
JSON and base64url-encode it.  The whole body is inside a `try`; any
thrown error is re-thrown as `SIGNING_FAILED "Failed to create
authentication stamp"` with the original error as its cause. -/
def ApiKeyStamper.stamp (decompress : Str → Except String (Nat × Nat))
    (signDer : Str → Except String Str) (stampJsonOf : Str → Str → Str)
    (apiPrivateKey apiPublicKey : Str) (message : Str) : Except JsError StampResult :=
  let body : Except JsError StampResult :=
    match convertTurnkeyApiKeyToJwk decompress apiPrivateKey apiPublicKey with
    | .error e => .error e
    | .ok _jwk =>
      match signDer message with
      | .error t => .error (.raw t)
      | .ok signatureHex =>
        .ok ⟨"X-Stamp", base64urlEncode ((stampJsonOf apiPublicKey signatureHex).map Char.toNat)⟩
  match body with
  | .ok r => .ok r
  | .error e => .error (.signerCause .signingFailed "Failed to create authentication stamp" e)

/-! ## Turnkey adapter (packages/turnkey/src/turnkey-signer.ts) -/

/-- `TurnkeySigner.padSignatureComponent`: hex-decode the component with
the base16 codec (a raw throw on invalid hex), reject components longer
than 32 bytes with `SIGNING_FAILED` naming the length, otherwise
left-pad with zeros to exactly 32 bytes. -/
def padSignatureComponent (hex : Str) : Except JsError Bytes :=
  match base16Decode hex with
  | none => .error (.raw "SolanaError: invalid base16 string")
  | some bytes =>
    if bytes.length > 32 then
      .error (.signer .signingFailed
        ("Invalid signature component length: " ++ toString bytes.length ++ " (max 32)"))
    else .ok (List.replicate (32 - bytes.length) 0 ++ bytes)

/-- `signRawPayloadResult` member of a Turnkey activity result. -/
structure SignRawPayloadResult where
  r : Str
  s : Str
deriving DecidableEq, Repr

/-- `signTransactionResult` member of a Turnkey activity result. -/
structure SignTransactionResult where
  signedTransaction : Option Str
deriving DecidableEq, Repr

/-- Turnkey activity result (either member may be absent). -/
structure ActivityResult where
  signRawPayloadResult : Option SignRawPayloadResult
  signTransactionResult : Option SignTransactionResult
deriving DecidableEq, Repr

/-- Turnkey activity (`result` optional, `status` string). -/
structure Activity where
  result : Option ActivityResult
  status : String
deriving DecidableEq, Repr

/-- Turnkey activity response envelope. -/
structure ActivityResponse where
  activity : Activity
deriving DecidableEq, Repr

/-- `TurnkeySigner.sign` (raw-payload path) downstream of building and
stamping the request: classify the network outcome, check the presence of
both signature components (an absent member or empty string is JS-falsy),
pad each component to 32 bytes and concatenate r then s. -/
def turnkeySign (o : HttpOutcome ActivityResponse) : Except JsError Bytes :=
  match o with
  | .reject t => .error (.signerCause .httpError "Turnkey network request failed" (.raw t))
  | .bad st _ => .error (.signer .remoteApiError ("Turnkey API error: " ++ toString st))
  | .undecodable t =>
    .error (.signerCause .parsingError "Failed to parse Turnkey response" (.raw t))
  | .ok resp =>
    match resp.activity.result with
    | none => .error (.signer .remoteApiError "Missing signature components in Turnkey response")
    | some res =>
      match res.signRawPayloadResult with
      | none => .error (.signer .remoteApiError "Missing signature components in Turnkey response")
      | some rs =>
        if rs.r.isEmpty ∨ rs.s.isEmpty then
          .error (.signer .remoteApiError "Missing signature components in Turnkey response")
        else
          match padSignatureComponent rs.r with
          | .error e => .error e
          | .ok rPadded =>
            match padSignatureComponent rs.s with
            | .error e => .error e
            | .ok sPadded => .ok (rPadded ++ sPadded)

/-- `TurnkeySigner.signMessages`: `Promise.all` over the batch; message
`i` is hex-encoded and signed through `sign` against backend outcome
`outcomes i`, then wrapped by `createSignatureDictionary` at the
adapter's own address. -/
def turnkeySignMessages (validAddr : String → Bool) (addr : String)
    (outcomes : Nat → HttpOutcome ActivityResponse) (msgs : List Bytes) :
    Except JsError (List SignatureDictionary) :=
  signerBatch
    (fun i =>
      match turnkeySign (outcomes i) with
      | .error e => .error e
      | .ok sig => createSignatureDictionary validAddr (some sig) addr)
    msgs.length

/-- Configuration of `TurnkeySigner`. -/
structure TurnkeySignerConfig where
  apiBaseUrl : Option String
  apiPrivateKey : String
  apiPublicKey : String
  organizationId : String
  privateKeyId : String
  publicKey : String
  requestDelayMs : Option Int
deriving DecidableEq, Repr

/-- A constructed `TurnkeySigner` (its immutable fields; the stamper
simply stores the two key strings without validating them). -/
structure TurnkeySigner where
  address : String
  apiBaseUrl : String
  organizationId : String
  privateKeyId : String
  apiPrivateKey : String
  apiPublicKey : String
  requestDelayMs : Int
deriving DecidableEq, Repr

/-- `new TurnkeySigner(config)`: synchronous `CONFIG_ERROR` validation of
the required fields, the public key presence and format, and the pacing
delay; the API key pair is stored unvalidated. -/
def turnkeyNew (validAddr : String → Bool) (cfg : TurnkeySignerConfig) :
    Except JsError TurnkeySigner :=
  if cfg.apiPublicKey = "" ∨ cfg.apiPrivateKey = "" ∨ cfg.organizationId = "" ∨
      cfg.privateKeyId = "" then
    .error (.signer .configError
      "Missing required configuration fields (apiPublicKey, apiPrivateKey, organizationId, or privateKeyId)")
  else if cfg.publicKey = "" then
    .error (.signer .configError "Missing required publicKey field")
  else if ¬ validAddr cfg.publicKey then
    .error (.signerCause .configError "Invalid Solana public key format"
      (.raw "SolanaError: invalid base58 address"))
  else
    let delay := cfg.requestDelayMs.getD 0
    if delay < 0 then
      .error (.signer .configError "requestDelayMs must not be negative")
    else
      let apiBaseUrl :=
        match cfg.apiBaseUrl with
        | some s => if s = "" then "https://api.turnkey.com" else s
        | none => "https://api.turnkey.com"
      .ok ⟨cfg.publicKey, apiBaseUrl, cfg.organizationId,
           cfg.privateKeyId, cfg.apiPrivateKey, cfg.apiPublicKey, delay⟩

/-- Turnkey who-am-i response (`organizationId` may be absent). -/
structure WhoAmIResponse where
  organizationId : Option String
deriving DecidableEq, Repr

/-- The body of `TurnkeySigner.isAvailable` inside its `try`: stamping may
throw (unvalidated API keys surface here), the fetch may reject, a non-ok
status returns `false`, the JSON parse may throw, and otherwise the
returned organization id must equal the configured one. -/
def turnkeyIsAvailableBody (orgId : String) (stampRes : Except JsError StampResult)
    (o : HttpOutcome WhoAmIResponse) : Except JsError Bool :=
  match stampRes with
  | .error e => .error e
  | .ok _ =>
    match o with
    | .reject t => .error (.raw t)
    | .bad _ _ => .ok false
    | .undecodable t => .error (.raw t)
    | .ok w =>
      .ok (match w.organizationId with
        | some s => s = orgId
        | none => false)

/-- `TurnkeySigner.isAvailable`: the surrounding `try/catch` collapses
every thrown error to `false`. -/
def turnkeyIsAvailable (orgId : String) (stampRes : Except JsError StampResult)
    (o : HttpOutcome WhoAmIResponse) : Bool :=
  match turnkeyIsAvailableBody orgId stampRes o with
  | .ok b => b
  | .error _ => false

/-! ## Privy adapter (packages/privy/src/privy-signer.ts) -/

/-- Configuration of `PrivySigner`. -/
structure PrivySignerConfig where
  appId : String
  appSecret : String
  walletId : String
  apiBaseUrl : Option String
deriving DecidableEq, Repr

/-- A `PrivySigner` instance (the address is written by
`Object.defineProperty` inside `create` before the instance is
returned). -/
structure PrivySigner where
  address : String
  appId : String
  appSecret : String
  walletId : String
  apiBaseUrl : String
  initialized : Bool
deriving DecidableEq, Repr

/-- Privy wallet fetch response (`address` may be absent). -/
structure WalletResponse where
  address : Option String
deriving DecidableEq, Repr

/-- `PrivySigner.fetchPublicKey`: the fetch rejection and the
`response.json()` rejection are NOT wrapped and propagate raw; a non-ok
status is thrown as `REMOTE_API_ERROR`; `assertIsAddress` on the returned
address throws a raw `SolanaError` when the address is absent or
invalid. -/
def privyFetchPublicKey (validAddr : String → Bool) (o : HttpOutcome WalletResponse) :
    Except JsError String :=
  match o with
  | .reject t => .error (.raw t)
  | .bad st _ => .error (.signer .remoteApiError ("Privy API error: " ++ toString st))
  | .undecodable t => .error (.raw t)
  | .ok w =>
    match w.address with
    | none => .error (.raw "SolanaError: assertIsAddress on undefined")
    | some a => if validAddr a then .ok a else .error (.raw "SolanaError: invalid base58 address")

/-- `PrivySigner.create(config)`: the private constructor stores the
configuration fields without any validation; `create` immediately
performs the wallet fetch (outcome `o`), defines the `address` field and
marks the instance initialized.  No configuration field is inspected
before the network call. -/
def privyCreate (validAddr : String → Bool) (cfg : PrivySignerConfig)
    (o : HttpOutcome WalletResponse) : Except JsError PrivySigner :=
  let apiBaseUrl :=
    match cfg.apiBaseUrl with
    | some s => if s = "" then "https://api.privy.io/v1" else s
    | none => "https://api.privy.io/v1"
  match privyFetchPublicKey validAddr o with
  | .error e => .error e
  | .ok addr => .ok ⟨addr, cfg.appId, cfg.appSecret, cfg.walletId, apiBaseUrl, true⟩

/-- Privy sign-message response body (`data.signature` base64). -/
structure SignMessageData where
  signature : Option Str
deriving DecidableEq, Repr

/-- Privy sign-message response envelope. -/
structure SignMessageResponse where
  data : Option SignMessageData
deriving DecidableEq, Repr

/-- `PrivySigner.signMessage` downstream of the network call: the fetch
rejection and the `response.json()` rejection propagate raw (no
`PARSING_ERROR` wrapping); a non-ok status is `REMOTE_API_ERROR`;
reading `.signature` of an absent `data` throws a raw TypeError;
`getSignatureBytes` base64-decodes the signature with the library
encoder (raw `SolanaError` on invalid input). -/
def privySignMessage (o : HttpOutcome SignMessageResponse) : Except JsError Bytes :=
  match o with
  | .reject t => .error (.raw t)
  | .bad st _ => .error (.signer .remoteApiError ("Privy API signing error: " ++ toString st))
  | .undecodable t => .error (.raw t)
  | .ok r =>
    match r.data with
    | none => .error (.raw "TypeError: cannot read properties of undefined")
    | some d =>
      match d.signature with
      | none => .error (.raw "SolanaError: base64 encode of undefined")
      | some s =>
        match base64Decode s with
        | some bs => .ok bs
        | none => .error (.raw "SolanaError: invalid base64 signature")

/-- `PrivySigner.signMessages`: `Promise.all` over the batch; message `i`
is base64-encoded and signed through `signMessage` against backend
outcome `outcomes i`, then wrapped by `createSignatureDictionary` at the
adapter's own address. -/
def privySignMessages (validAddr : String → Bool) (addr : String)
    (outcomes : Nat → HttpOutcome SignMessageResponse) (msgs : List Bytes) :
    Except JsError (List SignatureDictionary) :=
  signerBatch
    (fun i =>
      match privySignMessage (outcomes i) with
      | .error e => .error e
      | .ok sig => createSignatureDictionary validAddr (some sig) addr)
    msgs.length

/-- `PrivySigner.isAvailable`: `false` when uninitialized, otherwise a
fresh `fetchPublicKey` probe whose `try/catch` collapses every thrown
error to `false`. -/
def privyIsAvailable (s : PrivySigner) (validAddr : String → Bool)
    (o : HttpOutcome WalletResponse) : Bool :=
  if ¬ s.initialized then false
  else
    match privyFetchPublicKey validAddr o with
    | .ok _ => true
    | .error _ => false

/-! ## Transaction-batch pipelines of the three adapters -/

/-- `VaultSigner.signTransactions`: `Promise.all` over the batch; the
adapter signs each transaction's `messageBytes` through the very same
`signMessageBytes`/`signWithVault` path as a message (the backend's
response to call `i` is `outcomes i`), then wraps the result with
`createSignatureDictionary` at the adapter's own address. -/
def vaultSignTransactions (validAddr : String → Bool) (addr : String)
    (outcomes : Nat → VaultFetchOutcome) (txs : List Bytes) :
    Except JsError (List SignatureDictionary) :=
  signerBatch
    (fun i =>
      match signWithVault (outcomes i) with
      | .error e => .error e
      | .ok sig => createSignatureDictionary validAddr (some sig) addr)
    txs.length

/-- `TurnkeySigner.signTransaction` (transaction path) downstream of
building and stamping the request: classify the network outcome and
return the hex-encoded signed transaction; an absent
`activity.result?.signTransactionResult?.signedTransaction` member or an
empty string is JS-falsy and rejects with `REMOTE_API_ERROR`. -/
def turnkeySignTransaction (o : HttpOutcome ActivityResponse) : Except JsError Str :=
  match o with
  | .reject t => .error (.signerCause .httpError "Turnkey network request failed" (.raw t))
  | .bad st _ => .error (.signer .remoteApiError ("Turnkey API error: " ++ toString st))
  | .undecodable t =>
    .error (.signerCause .parsingError "Failed to parse Turnkey response" (.raw t))
  | .ok resp =>
    match resp.activity.result with
    | none => .error (.signer .remoteApiError "Missing signedTransaction in Turnkey response")
    | some res =>
      match res.signTransactionResult with
      | none => .error (.signer .remoteApiError "Missing signedTransaction in Turnkey response")
      | some tr =>
        match tr.signedTransaction with
        | none => .error (.signer .remoteApiError "Missing signedTransaction in Turnkey response")
        | some hexTx =>
          if hexTx.isEmpty then
            .error (.signer .remoteApiError "Missing signedTransaction in Turnkey response")
          else .ok hexTx

/-- One item of `TurnkeySigner.signTransactions`: sign the transaction
through `signTransaction`, hex-decode the returned signed transaction
with the base16 codec (raw throw on invalid hex), and take
`signedTxBytes.slice(1, 65)` — the 64 bytes after the 1-byte
signature-count prefix. -/
def turnkeyPerTransaction (o : HttpOutcome ActivityResponse) : Except JsError Bytes :=
  match turnkeySignTransaction o with
  | .error e => .error e
  | .ok signedTransactionHex =>
    match base16Decode signedTransactionHex with
    | none => .error (.raw "SolanaError: invalid base16 string")
    | some signedTxBytes => .ok ((signedTxBytes.drop 1).take 64)

/-- `TurnkeySigner.signTransactions`: `Promise.all` over the batch;
transaction `i` is wire-encoded, hex-converted and signed against backend
outcome `outcomes i`, its signature extracted positionally, then wrapped
by `createSignatureDictionary` at the adapter's own address. -/
def turnkeySignTransactions (validAddr : String → Bool) (addr : String)
    (outcomes : Nat → HttpOutcome ActivityResponse) (txs : List Bytes) :
    Except JsError (List SignatureDictionary) :=
  signerBatch
    (fun i =>
      match turnkeyPerTransaction (outcomes i) with
      | .error e => .error e
      | .ok sig => createSignatureDictionary validAddr (some sig) addr)
    txs.length

/-- Privy sign-transaction response body (`data.signed_transaction`
base64 wire transaction, either member possibly absent). -/
structure SignTransactionData where
  signed_transaction : Option Str
deriving DecidableEq, Repr

/-- Privy sign-transaction response envelope. -/
structure SignTransactionResponse where
  data : Option SignTransactionData
deriving DecidableEq, Repr

/-- `PrivySigner.signTransaction` downstream of the network call: the
fetch rejection and the `response.json()` rejection propagate raw; a
non-ok status is `REMOTE_API_ERROR`; reading `.signed_transaction` of an
absent `data` throws a raw TypeError; the member itself is returned
without any presence check (an absent member is passed along as
`undefined`). -/
def privySignTransaction (o : HttpOutcome SignTransactionResponse) :
    Except JsError (Option Str) :=
  match o with
  | .reject t => .error (.raw t)
  | .bad st _ => .error (.signer .remoteApiError ("Privy API signing error: " ++ toString st))
  | .undecodable t => .error (.raw t)
  | .ok r =>
    match r.data with
    | none => .error (.raw "TypeError: cannot read properties of undefined")
    | some d => .ok d.signed_transaction

/-- `extractSignatureFromWireTransaction` applied to a wire string, in
the statement order of utils.ts: `assertIsAddress` first, then the
library base64 decode and transaction decode (abstracted together by
`decodeTx`, which yields the address-keyed signature map or throws on a
malformed wire string), then the address lookup and
`createSignatureDictionary`.  `extractSignatureFromWireTransaction`
above is this function with the decode already performed. -/
def extractSignatureFromWireString (decodeTx : Str → Except String (List (String × Bytes)))
    (validAddr : String → Bool) (wire : Str) (signerAddress : String) :
    Except JsError SignatureDictionary :=
  if ¬ validAddr signerAddress then
    .error (.raw "SolanaError: invalid base58 address")
  else
    match decodeTx wire with
    | .error t => .error (.raw t)
    | .ok sigs =>
      match sigs.lookup signerAddress with
      | none =>
        .error (.signer .signingFailed ("No signature found for address " ++ signerAddress))
      | some sig => createSignatureDictionary validAddr (some sig) signerAddress

/-- `PrivySigner.signTransactions`: `Promise.all` over the batch;
transaction `i` is wire-encoded and signed against backend outcome
`outcomes i`, and the adapter's signature is extracted from the returned
signed wire transaction by `extractSignatureFromWireTransaction` at the
adapter's own address (a signed transaction returned as `undefined`
makes the library base64 encoder throw raw inside the extraction). -/
def privySignTransactions (decodeTx : Str → Except String (List (String × Bytes)))
    (validAddr : String → Bool) (addr : String)
    (outcomes : Nat → HttpOutcome SignTransactionResponse) (txs : List Bytes) :
    Except JsError (List SignatureDictionary) :=
  signerBatch
    (fun i =>
      match privySignTransaction (outcomes i) with
      | .error e => .error e
      | .ok none => .error (.raw "SolanaError: base64 encode of undefined")
      | .ok (some wire) => extractSignatureFromWireString decodeTx validAddr wire addr)
    txs.length

/-! ## Supporting lemmas -/

theorem beVal_replicate_zero_append (k : Nat) (bs : Bytes) :
    beVal (List.replicate k 0 ++ bs) = beVal bs := by
  induction k with
  | zero => rfl
  | succ k ih => simpa [List.replicate_succ, beVal, List.foldl_cons] using ih

theorem beVal_append_singleton (bs : Bytes) (b : Nat) :
    beVal (bs ++ [b]) = 256 * beVal bs + b := by
  simp [beVal, List.foldl_append]

theorem beVal_natBEBytes (n : Nat) : beVal (natBEBytes n) = n := by
  induction n using Nat.strong_induction_on with
  | _ n ih =>
    by_cases h : n = 0
    · simp [natBEBytes, h, beVal]
    · rw [natBEBytes]
      simp only [h, dite_false]
      rw [beVal_append_singleton, ih (n / 256) (Nat.div_lt_self (Nat.pos_of_ne_zero h) (by norm_num))]
      omega

theorem natBEBytes_length_le {n k : Nat} (h : n < 256 ^ k) :
    (natBEBytes n).length ≤ k := by
  induction k generalizing n with
  | zero =>
    have : n = 0 := by simpa using h
    simp [natBEBytes, this]
  | succ k ih =>
    by_cases h0 : n = 0
    · simp [natBEBytes, h0]
    · rw [natBEBytes]
      simp only [h0, dite_false, List.length_append, List.length_singleton]
      have hdiv : n / 256 < 256 ^ k := by
        rw [Nat.div_lt_iff_lt_mul (by norm_num : 0 < 256)]
        calc n < 256 ^ (k + 1) := h
          _ = 256 ^ k * 256 := by ring
      have := ih hdiv
      omega

theorem numberToBytesBE_length {n len : Nat} (h : n < 256 ^ len) :
    (numberToBytesBE n len).length = len := by
  have hle := natBEBytes_length_le h
  simp [numberToBytesBE]
  omega

theorem beVal_numberToBytesBE (n len : Nat) :
    beVal (numberToBytesBE n len) = n := by
  simp [numberToBytesBE, beVal_replicate_zero_append, beVal_natBEBytes]

theorem promiseAll_ok_length {α : Type} {xs : List (Except JsError α)} {ys : List α}
    (h : promiseAll xs = .ok ys) : ys.length = xs.length := by
  induction xs generalizing ys with
  | nil =>
    simp only [promiseAll, Except.ok.injEq] at h
    simp [← h]
  | cons x xs ih =>
    cases x with
    | error e => simp [promiseAll] at h
    | ok a =>
      simp only [promiseAll] at h
      cases hxs : promiseAll xs with
      | error e => rw [hxs] at h; cases h
      | ok as =>
        rw [hxs] at h
        cases h
        simp [ih hxs]

theorem promiseAll_ok_get {α : Type} {xs : List (Except JsError α)} {ys : List α}
    (h : promiseAll xs = .ok ys) : ∀ i : Nat, xs[i]? = (ys[i]?).map Except.ok := by
  induction xs generalizing ys with
  | nil =>
    simp only [promiseAll, Except.ok.injEq] at h
    intro i
    simp [← h]
  | cons x xs ih =>
    cases x with
    | error e => simp [promiseAll] at h
    | ok a =>
      simp only [promiseAll] at h
      cases hxs : promiseAll xs with
      | error e => rw [hxs] at h; cases h
      | ok as =>
        rw [hxs] at h
        cases h
        intro i
        cases i with
        | zero => simp
        | succ j => simpa using ih hxs j

theorem signerBatch_ok_spec {f : Nat → Except JsError SignatureDictionary} {n : Nat}
    {out : List SignatureDictionary} (h : signerBatch f n = .ok out) :
    out.length = n ∧ ∀ i, i < n → ∃ d, f i = .ok d ∧ out[i]? = some d := by
  have hlen := promiseAll_ok_length h
  simp only [List.length_map, List.length_range] at hlen
  refine ⟨hlen, fun i hi => ?_⟩
  have hget := promiseAll_ok_get h i
  rw [List.getElem?_map, List.getElem?_range hi] at hget
  match hout : out[i]? with
  | none =>
    rw [hout] at hget
    simp at hget
  | some d =>
    rw [hout] at hget
    refine ⟨d, ?_, rfl⟩
    simpa using hget

theorem signerBatch_err_of_item {f : Nat → Except JsError SignatureDictionary} {n : Nat}
    {i : Nat} (hi : i < n) {e : JsError} (hf : f i = .error e) :
    ∀ out, signerBatch f n ≠ .ok out := by
  intro out hok
  obtain ⟨-, hspec⟩ := signerBatch_ok_spec hok
  obtain ⟨d, hd, -⟩ := hspec i hi
  rw [hf] at hd
  exact Except.noConfusion hd

theorem padSignatureComponent_ok_spec {hex : Str} {bytes : Bytes}
    (hdec : base16Decode hex = some bytes) (hle : bytes.length ≤ 32) :
    padSignatureComponent hex = .ok (List.replicate (32 - bytes.length) 0 ++ bytes) := by
  rw [padSignatureComponent, hdec]
  simp only [gt_iff_lt]
  rw [if_neg (by omega)]

theorem padSignatureComponent_ok_length {hex : Str} {p : Bytes}
    (h : padSignatureComponent hex = .ok p) : p.length = 32 := by
  rw [padSignatureComponent] at h
  cases hdec : base16Decode hex with
  | none => rw [hdec] at h; cases h
  | some bytes =>
    rw [hdec] at h
    simp only [gt_iff_lt] at h
    by_cases hl : 32 < bytes.length
    · rw [if_pos hl] at h; cases h
    · rw [if_neg hl] at h
      cases h
      simp only [List.length_append, List.length_replicate]
      omega

theorem createSignatureDictionary_ok_spec {v : String → Bool} {sig : Option Bytes}
    {addr : String} {d : SignatureDictionary}
    (h : createSignatureDictionary v sig addr = .ok d) :
    v addr = true ∧ ∃ s, sig = some s ∧ d = ⟨[(addr, s)], true⟩ := by
  unfold createSignatureDictionary at h
  by_cases hv : v addr = true
  · rw [if_neg (by simp [hv])] at h
    cases sig with
    | none => cases h
    | some s =>
      cases h
      exact ⟨hv, s, rfl, rfl⟩
  · rw [if_pos (by simpa using hv)] at h
    cases h

theorem batchPipe_ok_spec {g : Nat → Except JsError Bytes} {v : String → Bool}
    {addr : String} {n : Nat} {res : List SignatureDictionary}
    (h : signerBatch
          (fun i =>
            match g i with
            | .error e => .error e
            | .ok sig => createSignatureDictionary v (some sig) addr) n = .ok res) :
    res.length = n ∧
      ∀ i, i < n → ∃ s, g i = .ok s ∧
        res[i]? = some (⟨[(addr, s)], true⟩ : SignatureDictionary) := by
  obtain ⟨hlen, hspec⟩ := signerBatch_ok_spec h
  refine ⟨hlen, fun i hi => ?_⟩
  obtain ⟨d, hd, hout⟩ := hspec i hi
  cases hg : g i with
  | error e => simp [hg] at hd
  | ok s =>
    rw [hg] at hd
    obtain ⟨-, s', hs', hd'⟩ := createSignatureDictionary_ok_spec hd
    cases hs'
    exact ⟨s, rfl, by rw [hout, hd']⟩

theorem batchPipe_err {g : Nat → Except JsError Bytes} {v : String → Bool}
    {addr : String} {n i : Nat} {e : JsError} (hi : i < n) (hg : g i = .error e) :
    ∀ res, signerBatch
        (fun i =>
          match g i with
          | .error e => .error e
          | .ok sig => createSignatureDictionary v (some sig) addr) n ≠ .ok res := by
  have hfi : (fun j =>
      match g j with
      | Except.error err => (Except.error err : Except JsError SignatureDictionary)
      | Except.ok sig => createSignatureDictionary v (some sig) addr) i = Except.error e := by
    simp only []
    rw [hg]
  exact signerBatch_err_of_item hi hfi

theorem batchPipe_mem {g : Nat → Except JsError Bytes} {v : String → Bool}
    {addr : String} {n : Nat} {res : List SignatureDictionary}
    (h : signerBatch
          (fun i =>
            match g i with
            | .error e => .error e
            | .ok sig => createSignatureDictionary v (some sig) addr) n = .ok res) :
    ∀ d ∈ res, d.frozen = true ∧ ∃ s, d.entries = [(addr, s)] := by
  intro d hd
  obtain ⟨hlen, hspec⟩ := batchPipe_ok_spec h
  obtain ⟨i, hi⟩ := List.mem_iff_getElem?.mp hd
  have hilt : i < n := by
    by_contra hge
    rw [List.getElem?_eq_none (by omega)] at hi
    cases hi
  obtain ⟨s, -, hout⟩ := hspec i hilt
  rw [hout] at hi
  cases hi
  exact ⟨rfl, s, rfl⟩

theorem extractSignatureFromWireString_ok_spec
    {decodeTx : Str → Except String (List (String × Bytes))} {v : String → Bool}
    {wire : Str} {addr : String} {d : SignatureDictionary}
    (h : extractSignatureFromWireString decodeTx v wire addr = .ok d) :
    ∃ sigs s, decodeTx wire = .ok sigs ∧ sigs.lookup addr = some s ∧
      d = ⟨[(addr, s)], true⟩ := by
  unfold extractSignatureFromWireString at h
  split at h
  · cases h
  · split at h
    · cases h
    · rename_i sigs hdec
      split at h
      · cases h
      · rename_i sig hlk
        obtain ⟨-, s, hs, hd⟩ := createSignatureDictionary_ok_spec h
        cases hs
        exact ⟨sigs, sig, hdec, hlk, hd⟩

theorem privyTxBatch_ok_spec {decodeTx : Str → Except String (List (String × Bytes))}
    {v : String → Bool} {addr : String} {outs : Nat → HttpOutcome SignTransactionResponse}
    {txs : List Bytes} {res : List SignatureDictionary}
    (h : privySignTransactions decodeTx v addr outs txs = .ok res) :
    res.length = txs.length ∧ ∀ i, i < txs.length →
      ∃ wire sigs s, privySignTransaction (outs i) = .ok (some wire) ∧
        decodeTx wire = .ok sigs ∧ sigs.lookup addr = some s ∧
        res[i]? = some (⟨[(addr, s)], true⟩ : SignatureDictionary) := by
  unfold privySignTransactions at h
  obtain ⟨hlen, hspec⟩ := signerBatch_ok_spec h
  refine ⟨hlen, fun i hi => ?_⟩
  obtain ⟨d, hd, hout⟩ := hspec i hi
  cases hp : privySignTransaction (outs i) with
  | error e => simp [hp] at hd
  | ok owire =>
    cases owire with
    | none => simp [hp] at hd
    | some wire =>
      rw [hp] at hd
      obtain ⟨sigs, s, hdec, hlk, hd'⟩ := extractSignatureFromWireString_ok_spec hd
      exact ⟨wire, sigs, s, rfl, hdec, hlk, by rw [hout, hd']⟩

theorem privyTxBatch_err {decodeTx : Str → Except String (List (String × Bytes))}
    {v : String → Bool} {addr : String} {outs : Nat → HttpOutcome SignTransactionResponse}
    {txs : List Bytes} {i : Nat} {e : JsError} (hi : i < txs.length)
    (hp : privySignTransaction (outs i) = .error e) :
    ∀ res, privySignTransactions decodeTx v addr outs txs ≠ .ok res := by
  unfold privySignTransactions
  have hfi : (fun j =>
      match privySignTransaction (outs j) with
      | Except.error err => (Except.error err : Except JsError SignatureDictionary)
      | Except.ok none => .error (.raw "SolanaError: base64 encode of undefined")
      | Except.ok (some wire) => extractSignatureFromWireString decodeTx v wire addr) i =
      Except.error e := by
    simp only []
    rw [hp]
  exact signerBatch_err_of_item hi hfi

/-! ## Claim theorems -/

/-- C9: for every base64 body `B` (characters drawn from the base64
alphabet or padding), decoding the tag-prefixed string
`"vault:v1:" ++ B` — the tagged form produced by the key-vault backend —
yields exactly the same result as decoding `B` alone, and an untagged
string is treated as already-encoded (the two sides run the identical
untagged path). -/
theorem claim_C9_decode_tagged_signature (B : Str) (hB : ∀ c ∈ B, isB64Char c = true) :
    extractSignatureFromVaultFormat (vaultTagStr ++ B) = extractSignatureFromVaultFormat B := by
  have h1 : vaultTagStr.isPrefixOf (vaultTagStr ++ B) = true := by
    rw [List.isPrefixOf_iff_prefix]
    exact List.prefix_append _ _
  have h2 : ¬ vaultTagStr.isPrefixOf B = true := by
    intro h
    rw [List.isPrefixOf_iff_prefix] at h
    obtain ⟨t, ht⟩ := h
    have hcolon : (':' : Char) ∈ B := by
      rw [← ht]
      simp [vaultTagStr]
    have := hB ':' hcolon
    exact absurd this (by decide)
  rw [extractSignatureFromVaultFormat, extractSignatureFromVaultFormat,
      stripVaultTag, stripVaultTag, if_pos h1, if_neg h2, List.drop_left]

/-- C9 witness: concrete instance at the base64 body `"AAAA"`. -/
theorem claim_C9_witness :
    extractSignatureFromVaultFormat (vaultTagStr ++ ['A', 'A', 'A', 'A']) =
      extractSignatureFromVaultFormat ['A', 'A', 'A', 'A'] :=
  claim_C9_decode_tagged_signature ['A', 'A', 'A', 'A'] (by decide)

/-- C7: every hex component decoding to at most 32 bytes is left-zero-
padded to exactly 32 bytes with its big-endian value unchanged, and the
raw-payload sign assembles `r` into bytes 0–31 and `s` into bytes 32–63;
concretely, `r = "1234abcd"`, `s = "5678ef90"` yield the 64-byte
signature with bytes 0–27 zero, 28–31 `= r`, 32–59 zero, 60–63 `= s`. -/
theorem claim_C7_pad_and_combine :
    (∀ (hex : Str) (bytes : Bytes), base16Decode hex = some bytes → bytes.length ≤ 32 →
      padSignatureComponent hex = .ok (List.replicate (32 - bytes.length) 0 ++ bytes) ∧
      (List.replicate (32 - bytes.length) 0 ++ bytes).length = 32 ∧
      beVal (List.replicate (32 - bytes.length) 0 ++ bytes) = beVal bytes) ∧
    turnkeySign (.ok ⟨⟨some ⟨some ⟨['1', '2', '3', '4', 'a', 'b', 'c', 'd'],
        ['5', '6', '7', '8', 'e', 'f', '9', '0']⟩, none⟩, "ACTIVITY_STATUS_COMPLETED"⟩⟩) =
      .ok (List.replicate 28 0 ++ [18, 52, 171, 205] ++
           (List.replicate 28 0 ++ [86, 120, 239, 144])) := by
  constructor
  · intro hex bytes hdec hle
    refine ⟨padSignatureComponent_ok_spec hdec hle, ?_, beVal_replicate_zero_append _ _⟩
    simp only [List.length_append, List.length_replicate]
    omega
  · rfl

/-- C7 witness: concrete instance of the padding branch at the 1-byte
component `"01"`. -/
theorem claim_C7_witness :
    padSignatureComponent ['0', '1'] = .ok (List.replicate 31 0 ++ [1]) :=
  (claim_C7_pad_and_combine.1 ['0', '1'] [1] (by decide) (by decide)).1

/-- C8: a signature component whose hex decodes to more than 32 bytes
makes `padSignatureComponent` — and therefore the whole raw-payload sign,
before any signature is assembled — reject with `SIGNING_FAILED` whose
message names the offending component length; concretely a 33-byte `r`
component rejects with the length 33 and no signature value is produced. -/
theorem claim_C8_oversized_component :
    (∀ (hex : Str) (bytes : Bytes), base16Decode hex = some bytes → bytes.length > 32 →
      padSignatureComponent hex = .error (.signer .signingFailed
        ("Invalid signature component length: " ++ toString bytes.length ++ " (max 32)"))) ∧
    (∀ (rHex sHex : Str) (bytes : Bytes) (status : String),
      rHex ≠ [] → sHex ≠ [] → base16Decode rHex = some bytes → bytes.length > 32 →
      turnkeySign (.ok ⟨⟨some ⟨some ⟨rHex, sHex⟩, none⟩, status⟩⟩) =
        .error (.signer .signingFailed
          ("Invalid signature component length: " ++ toString bytes.length ++ " (max 32)"))) ∧
    turnkeySign (.ok ⟨⟨some ⟨some ⟨List.replicate 66 'a', ['b', 'b']⟩, none⟩, "s"⟩⟩) =
      .error (.signer .signingFailed "Invalid signature component length: 33 (max 32)") := by
  have hpad : ∀ (hex : Str) (bytes : Bytes), base16Decode hex = some bytes →
      bytes.length > 32 →
      padSignatureComponent hex = .error (.signer .signingFailed
        ("Invalid signature component length: " ++ toString bytes.length ++ " (max 32)")) := by
    intro hex bytes hdec hgt
    rw [padSignatureComponent, hdec]
    simp only [gt_iff_lt]
    rw [if_pos (by omega)]
  refine ⟨hpad, ?_, by rfl⟩
  intro rHex sHex bytes status hr hs hdec hgt
  rw [turnkeySign]
  simp only [List.isEmpty_iff, hr, hs, or_self, if_false]
  rw [hpad rHex bytes hdec hgt]

/-- C8 witness: concrete instance at a 33-byte component. -/
theorem claim_C8_witness :
    padSignatureComponent (List.replicate 66 'a') =
      .error (.signer .signingFailed "Invalid signature component length: 33 (max 32)") :=
  claim_C8_oversized_component.1 (List.replicate 66 'a') (List.replicate 33 170)
    (by decide) (by decide)

/-- C5: `isAvailable` of each adapter is a total boolean-valued function
of the probe outcome (so it never throws — every throwing step sits
inside the `try`, and the `catch` returns `false`), and each internal
failure mode — network rejection, non-success status, unparsable body,
failed stamping, mismatched organization id, missing or invalid wallet
address — yields `false`. -/
theorem claim_C5_isAvailable_total_false_on_failure :
    (∀ t, vaultIsAvailable (.reject t) = false) ∧
    (∀ st b, vaultIsAvailable (.bad st b) = false) ∧
    (∀ t, vaultIsAvailable (.undecodable t) = false) ∧
    (∀ orgId e o, turnkeyIsAvailable orgId (.error e) o = false) ∧
    (∀ orgId sr t, turnkeyIsAvailable orgId sr (.reject t) = false) ∧
    (∀ orgId sr st b, turnkeyIsAvailable orgId sr (.bad st b) = false) ∧
    (∀ orgId sr t, turnkeyIsAvailable orgId sr (.undecodable t) = false) ∧
    (∀ orgId sr w, w.organizationId ≠ some orgId →
      turnkeyIsAvailable orgId sr (.ok w) = false) ∧
    (∀ s v o, s.initialized = false → privyIsAvailable s v o = false) ∧
    (∀ s v t, privyIsAvailable s v (.reject t) = false) ∧
    (∀ s v st b, privyIsAvailable s v (.bad st b) = false) ∧
    (∀ s v t, privyIsAvailable s v (.undecodable t) = false) ∧
    (∀ s v, privyIsAvailable s v (.ok ⟨none⟩) = false) ∧
    (∀ s v a, v a = false → privyIsAvailable s v (.ok ⟨some a⟩) = false) := by
  refine ⟨fun t => rfl, fun st b => rfl, fun t => rfl, ?_, ?_, ?_, ?_, ?_, ?_, ?_, ?_, ?_, ?_, ?_⟩
  · intro orgId e o
    cases o <;> rfl
  · intro orgId sr t
    cases sr <;> rfl
  · intro orgId sr st b
    cases sr <;> rfl
  · intro orgId sr t
    cases sr <;> rfl
  · intro orgId sr w hne
    cases sr with
    | error e => rfl
    | ok r =>
      rw [turnkeyIsAvailable, turnkeyIsAvailableBody]
      cases hw : w.organizationId with
      | none => rfl
      | some s =>
        have : s ≠ orgId := by
          intro hcontra
          exact hne (by rw [hw, hcontra])
        simp [this]
  · intro s v o hinit
    rw [privyIsAvailable]
    simp [hinit]
  · intro s v t
    rw [privyIsAvailable]
    split
    · rfl
    · rfl
  · intro s v st b
    rw [privyIsAvailable]
    split
    · rfl
    · rfl
  · intro s v t
    rw [privyIsAvailable]
    split
    · rfl
    · rfl
  · intro s v
    rw [privyIsAvailable]
    split
    · rfl
    · rfl
  · intro s v a hva
    rw [privyIsAvailable]
    split
    · rfl
    · rw [privyFetchPublicKey]
      simp [hva]

/-- C5 witness: concrete failure instances for each adapter. -/
theorem claim_C5_witness :
    vaultIsAvailable (.reject "Network error") = false ∧
    turnkeyIsAvailable "org-1" (.ok ⟨"X-Stamp", []⟩) (.ok ⟨some "different-org-id"⟩) = false ∧
    privyIsAvailable ⟨"A", "id", "sec", "w", "u", true⟩ (fun _ => false)
      (.ok ⟨some "not-a-valid-address"⟩) = false := by
  refine ⟨claim_C5_isAvailable_total_false_on_failure.1 "Network error", ?_, ?_⟩
  · exact claim_C5_isAvailable_total_false_on_failure.2.2.2.2.2.2.2.1 "org-1"
      (.ok ⟨"X-Stamp", []⟩) ⟨some "different-org-id"⟩ (by decide)
  · exact claim_C5_isAvailable_total_false_on_failure.2.2.2.2.2.2.2.2.2.2.2.2.2
      ⟨"A", "id", "sec", "w", "u", true⟩ (fun _ => false) "not-a-valid-address" rfl

/-- C6: a successful batch sign call returns exactly one record per input
payload, the record at index `i` coming from payload `i`'s own backend
operation (`Promise.all` places results by task index, so completion
order cannot reorder them); and if any single payload's operation fails,
the whole call rejects — no partial result is ever returned.  Stated for
all six batch entry points — the Vault, Turnkey and Privy `signMessages`
pipelines and the Vault, Turnkey and Privy `signTransactions`
pipelines — each quantified over an arbitrary per-payload backend
behaviour (and, for the Privy transaction path, an arbitrary library
transaction decoder). -/
theorem claim_C6_batch_order_all_or_nothing :
    (∀ (v : String → Bool) (addr : String) (outs : Nat → VaultFetchOutcome)
        (msgs : List Bytes) (res : List SignatureDictionary),
      vaultSignMessages v addr outs msgs = .ok res →
        res.length = msgs.length ∧
        ∀ i, i < msgs.length → ∃ s, signWithVault (outs i) = .ok s ∧
          res[i]? = some (⟨[(addr, s)], true⟩ : SignatureDictionary)) ∧
    (∀ (v : String → Bool) (addr : String) (outs : Nat → VaultFetchOutcome)
        (msgs : List Bytes) (i : Nat) (e : JsError), i < msgs.length →
      signWithVault (outs i) = .error e →
      ∀ res, vaultSignMessages v addr outs msgs ≠ .ok res) ∧
    (∀ (v : String → Bool) (addr : String) (outs : Nat → HttpOutcome ActivityResponse)
        (msgs : List Bytes) (res : List SignatureDictionary),
      turnkeySignMessages v addr outs msgs = .ok res →
        res.length = msgs.length ∧
        ∀ i, i < msgs.length → ∃ s, turnkeySign (outs i) = .ok s ∧
          res[i]? = some (⟨[(addr, s)], true⟩ : SignatureDictionary)) ∧
    (∀ (v : String → Bool) (addr : String) (outs : Nat → HttpOutcome ActivityResponse)
        (msgs : List Bytes) (i : Nat) (e : JsError), i < msgs.length →
      turnkeySign (outs i) = .error e →
      ∀ res, turnkeySignMessages v addr outs msgs ≠ .ok res) ∧
    (∀ (v : String → Bool) (addr : String) (outs : Nat → HttpOutcome SignMessageResponse)
        (msgs : List Bytes) (res : List SignatureDictionary),
      privySignMessages v addr outs msgs = .ok res →
        res.length = msgs.length ∧
        ∀ i, i < msgs.length → ∃ s, privySignMessage (outs i) = .ok s ∧
          res[i]? = some (⟨[(addr, s)], true⟩ : SignatureDictionary)) ∧
    (∀ (v : String → Bool) (addr : String) (outs : Nat → HttpOutcome SignMessageResponse)
        (msgs : List Bytes) (i : Nat) (e : JsError), i < msgs.length →
      privySignMessage (outs i) = .error e →
      ∀ res, privySignMessages v addr outs msgs ≠ .ok res) ∧
    (∀ (v : String → Bool) (addr : String) (outs : Nat → VaultFetchOutcome)
        (txs : List Bytes) (res : List SignatureDictionary),
      vaultSignTransactions v addr outs txs = .ok res →
        res.length = txs.length ∧
        ∀ i, i < txs.length → ∃ s, signWithVault (outs i) = .ok s ∧
          res[i]? = some (⟨[(addr, s)], true⟩ : SignatureDictionary)) ∧
    (∀ (v : String → Bool) (addr : String) (outs : Nat → VaultFetchOutcome)
        (txs : List Bytes) (i : Nat) (e : JsError), i < txs.length →
      signWithVault (outs i) = .error e →
      ∀ res, vaultSignTransactions v addr outs txs ≠ .ok res) ∧
    (∀ (v : String → Bool) (addr : String) (outs : Nat → HttpOutcome ActivityResponse)
        (txs : List Bytes) (res : List SignatureDictionary),
      turnkeySignTransactions v addr outs txs = .ok res →
        res.length = txs.length ∧
        ∀ i, i < txs.length → ∃ s, turnkeyPerTransaction (outs i) = .ok s ∧
          res[i]? = some (⟨[(addr, s)], true⟩ : SignatureDictionary)) ∧
    (∀ (v : String → Bool) (addr : String) (outs : Nat → HttpOutcome ActivityResponse)
        (txs : List Bytes) (i : Nat) (e : JsError), i < txs.length →
      turnkeyPerTransaction (outs i) = .error e →
      ∀ res, turnkeySignTransactions v addr outs txs ≠ .ok res) ∧
    (∀ (decodeTx : Str → Except String (List (String × Bytes))) (v : String → Bool)
        (addr : String) (outs : Nat → HttpOutcome SignTransactionResponse)
        (txs : List Bytes) (res : List SignatureDictionary),
      privySignTransactions decodeTx v addr outs txs = .ok res →
        res.length = txs.length ∧
        ∀ i, i < txs.length → ∃ wire sigs s,
          privySignTransaction (outs i) = .ok (some wire) ∧
          decodeTx wire = .ok sigs ∧ sigs.lookup addr = some s ∧
          res[i]? = some (⟨[(addr, s)], true⟩ : SignatureDictionary)) ∧
    (∀ (decodeTx : Str → Except String (List (String × Bytes))) (v : String → Bool)
        (addr : String) (outs : Nat → HttpOutcome SignTransactionResponse)
        (txs : List Bytes) (i : Nat) (e : JsError), i < txs.length →
      privySignTransaction (outs i) = .error e →
      ∀ res, privySignTransactions decodeTx v addr outs txs ≠ .ok res) := by
  refine ⟨?_, ?_, ?_, ?_, ?_, ?_, ?_, ?_, ?_, ?_, ?_, ?_⟩
  · intro v addr outs msgs res h
    exact batchPipe_ok_spec h
  · intro v addr outs msgs i e hi he
    exact batchPipe_err hi he
  · intro v addr outs msgs res h
    exact batchPipe_ok_spec h
  · intro v addr outs msgs i e hi he
    exact batchPipe_err hi he
  · intro v addr outs msgs res h
    exact batchPipe_ok_spec h
  · intro v addr outs msgs i e hi he
    exact batchPipe_err hi he
  · intro v addr outs txs res h
    exact batchPipe_ok_spec h
  · intro v addr outs txs i e hi he
    exact batchPipe_err hi he
  · intro v addr outs txs res h
    exact batchPipe_ok_spec h
  · intro v addr outs txs i e hi he
    exact batchPipe_err hi he
  · intro decodeTx v addr outs txs res h
    exact privyTxBatch_ok_spec h
  · intro decodeTx v addr outs txs i e hi he
    exact privyTxBatch_err hi he

/-- C6 witness: a concrete one-message Vault batch and a concrete
one-transaction Turnkey batch each return exactly one record. -/
theorem claim_C6_witness :
    ([(⟨[("A", [0, 0, 0])], true⟩ : SignatureDictionary)]).length = 1 ∧
    ([(⟨[("A", List.replicate 64 170)], true⟩ : SignatureDictionary)]).length = 1 := by
  constructor
  · have h := claim_C6_batch_order_all_or_nothing.1 (fun _ => true) "A"
      (fun _ => VaultFetchOutcome.ok ⟨some ⟨some ['A', 'A', 'A', 'A']⟩⟩)
      [[42]] [⟨[("A", [0, 0, 0])], true⟩] rfl
    exact h.1
  · have h := claim_C6_batch_order_all_or_nothing.2.2.2.2.2.2.2.2.1 (fun _ => true) "A"
      (fun _ => HttpOutcome.ok ⟨⟨some ⟨none, some ⟨some (List.replicate 130 'a')⟩⟩, "s"⟩⟩)
      [[1]] [⟨[("A", List.replicate 64 170)], true⟩] rfl
    exact h.1

/-- C10: every signature dictionary produced by
`createSignatureDictionary` or `extractSignatureFromWireTransaction` —
and hence every record of a successful Vault, Turnkey or Privy batch sign
call — is frozen (`Object.freeze`, so it cannot be mutated after being
returned) and holds exactly one entry, keyed at the requesting signer's
own address. -/
theorem claim_C10_frozen_singleton :
    (∀ (v : String → Bool) (sig : Option Bytes) (addr : String) (d : SignatureDictionary),
      createSignatureDictionary v sig addr = .ok d →
        d.frozen = true ∧ ∃ s, d.entries = [(addr, s)]) ∧
    (∀ (v : String → Bool) (sigs : List (String × Bytes)) (addr : String)
        (d : SignatureDictionary),
      extractSignatureFromWireTransaction v sigs addr = .ok d →
        d.frozen = true ∧ ∃ s, d.entries = [(addr, s)]) ∧
    (∀ (v : String → Bool) (addr : String) (outs : Nat → VaultFetchOutcome)
        (msgs : List Bytes) (res : List SignatureDictionary),
      vaultSignMessages v addr outs msgs = .ok res →
        ∀ d ∈ res, d.frozen = true ∧ ∃ s, d.entries = [(addr, s)]) ∧
    (∀ (v : String → Bool) (addr : String) (outs : Nat → HttpOutcome ActivityResponse)
        (msgs : List Bytes) (res : List SignatureDictionary),
      turnkeySignMessages v addr outs msgs = .ok res →
        ∀ d ∈ res, d.frozen = true ∧ ∃ s, d.entries = [(addr, s)]) ∧
    (∀ (v : String → Bool) (addr : String) (outs : Nat → HttpOutcome SignMessageResponse)
        (msgs : List Bytes) (res : List SignatureDictionary),
      privySignMessages v addr outs msgs = .ok res →
        ∀ d ∈ res, d.frozen = true ∧ ∃ s, d.entries = [(addr, s)]) := by
  have hcreate : ∀ (v : String → Bool) (sig : Option Bytes) (addr : String)
      (d : SignatureDictionary),
      createSignatureDictionary v sig addr = .ok d →
        d.frozen = true ∧ ∃ s, d.entries = [(addr, s)] := by
    intro v sig addr d h
    obtain ⟨-, s, -, hd⟩ := createSignatureDictionary_ok_spec h
    rw [hd]
    exact ⟨rfl, s, rfl⟩
  refine ⟨hcreate, ?_, ?_, ?_, ?_⟩
  · intro v sigs addr d h
    unfold extractSignatureFromWireTransaction at h
    by_cases hv : v addr = true
    · rw [if_neg (by simp [hv])] at h
      cases hlook : sigs.lookup addr with
      | none => rw [hlook] at h; cases h
      | some sig =>
        rw [hlook] at h
        exact hcreate v (some sig) addr d h
    · rw [if_pos (by simpa using hv)] at h
      cases h
  · intro v addr outs msgs res h
    exact batchPipe_mem h
  · intro v addr outs msgs res h
    exact batchPipe_mem h
  · intro v addr outs msgs res h
    exact batchPipe_mem h

/-- C10 witness: a concrete dictionary built by
`createSignatureDictionary` is frozen with one entry at the signer's
address. -/
theorem claim_C10_witness :
    (⟨[("A", [1])], true⟩ : SignatureDictionary).frozen = true ∧
    ∃ s, (⟨[("A", [1])], true⟩ : SignatureDictionary).entries = [("A", s)] :=
  claim_C10_frozen_singleton.1 (fun _ => true) (some [1]) "A" ⟨[("A", [1])], true⟩ rfl

/-- C1 counterexample: the Vault adapter signs one message successfully
while the backend's tagged signature body decodes to only 6 bytes; the
6-byte signature is returned to the caller in the record, refuting
"every signature value contained in a returned SignatureRecord is
exactly 64 bytes long". -/
theorem claim_C1_counterexample :
    vaultSignMessages (fun _ => true) "A"
      (fun _ => .ok ⟨some ⟨some ['v', 'a', 'u', 'l', 't', ':', 'v', '1', ':',
        'A', 'A', 'A', 'A', 'A', 'A', 'A', 'A']⟩⟩) [[7]] =
      .ok [⟨[("A", [0, 0, 0, 0, 0, 0])], true⟩] ∧
    ([0, 0, 0, 0, 0, 0] : Bytes).length ≠ 64 := ⟨rfl, by decide⟩

/-- C1 amended: the Turnkey raw-payload path always produces exactly
64-byte signatures (two components padded to 32 bytes each); the Vault
and Privy message paths perform no length check and return exactly the
base64-decoded backend signature bytes, whatever their length. -/
theorem claim_C1_amended_signature_lengths :
    (∀ (o : HttpOutcome ActivityResponse) (bs : Bytes),
      turnkeySign o = .ok bs → bs.length = 64) ∧
    (∀ (sigStr : Str) (bs : Bytes), stripVaultTag sigStr ≠ [] →
      base64Decode (stripVaultTag sigStr) = some bs →
      extractSignatureFromVaultFormat sigStr = .ok bs) ∧
    (∀ (s : Str) (bs : Bytes), base64Decode s = some bs →
      privySignMessage (.ok ⟨some ⟨some s⟩⟩) = .ok bs) := by
  refine ⟨?_, ?_, ?_⟩
  · intro o bs h
    cases o with
    | reject t => simp [turnkeySign] at h
    | bad st b => simp [turnkeySign] at h
    | undecodable t => simp [turnkeySign] at h
    | ok resp =>
      obtain ⟨⟨result, status⟩⟩ := resp
      cases result with
      | none => simp [turnkeySign] at h
      | some res =>
        obtain ⟨rawRes, txRes⟩ := res
        cases rawRes with
        | none => simp [turnkeySign] at h
        | some rs =>
          obtain ⟨r, s⟩ := rs
          simp only [turnkeySign] at h
          split at h
          · cases h
          · split at h
            · cases h
            · rename_i rP hpr
              split at h
              · cases h
              · rename_i sP hps
                cases h
                have h1 := padSignatureComponent_ok_length hpr
                have h2 := padSignatureComponent_ok_length hps
                simp [h1, h2]
  · intro sigStr bs hne hdec
    unfold extractSignatureFromVaultFormat
    rw [if_neg (by simp [List.isEmpty_iff, hne]), hdec]
  · intro s bs hdec
    simp [privySignMessage, hdec]

/-- C1 witness: a 4-character untagged base64 body decodes through the
Vault extraction to a 3-byte signature. -/
theorem claim_C1_witness :
    extractSignatureFromVaultFormat ['A', 'A', 'A', 'A'] = .ok [0, 0, 0] :=
  claim_C1_amended_signature_lengths.2.1 ['A', 'A', 'A', 'A'] [0, 0, 0]
    (by decide) (by decide)

/-- C2: Vault and Turnkey do validate their required configuration fields
synchronously at construction with `CONFIG_ERROR`, but `PrivySigner`
performs no configuration-field validation at all: `create` with an empty
`appId` proceeds straight to the wallet fetch and, when that call
succeeds, returns an initialized signer — no `ConfigError` is ever
raised, contradicting the claim (and the repository's own
privy-signer.test.ts, which expects `SIGNER_CONFIG_ERROR` with message
"Missing required configuration fields" for exactly this input). -/
theorem claim_C2_construction_validation_divergence :
    vaultNew (fun _ => true) ⟨"test-key", "P", none, "", "test-token"⟩ =
      .error (.signer .configError
        "Missing required configuration fields (vaultAddr, vaultToken, or keyName)") ∧
    turnkeyNew (fun _ => true) ⟨none, "", "pub", "org", "pk", "P", none⟩ =
      .error (.signer .configError
        "Missing required configuration fields (apiPublicKey, apiPrivateKey, organizationId, or privateKeyId)") ∧
    privyCreate (fun _ => true) ⟨"", "test-app-secret", "test-wallet-id", none⟩
        (.ok ⟨some "A"⟩) =
      .ok ⟨"A", "", "test-app-secret", "test-wallet-id", "https://api.privy.io/v1", true⟩ :=
  ⟨rfl, rfl, rfl⟩

/-- C3: on a success status with an undecodable body, the Privy sign path
propagates the raw lower-level decode error unchanged — not a
`PARSING_ERROR` — contradicting the claim (and the repository's own
privy-signer.test.ts, which expects `SIGNER_PARSING_ERROR`); the Vault
and Turnkey sign paths do wrap the same failure as `PARSING_ERROR`. -/
theorem claim_C3_parse_failure_classification :
    privySignMessage (.undecodable "SyntaxError: Unexpected token") =
      .error (.raw "SyntaxError: Unexpected token") ∧
    (JsError.raw "SyntaxError: Unexpected token").code ≠ some ErrCode.parsingError ∧
    privySignMessages (fun _ => true) "A"
        (fun _ => .undecodable "SyntaxError: Unexpected token") [[1]] =
      .error (.raw "SyntaxError: Unexpected token") ∧
    signWithVault (.undecodable "SyntaxError: Unexpected token") =
      .error (.signerCause .parsingError "Failed to parse Vault signing response"
        (.raw "SyntaxError: Unexpected token")) ∧
    turnkeySign (.undecodable "SyntaxError: Unexpected token") =
      .error (.signerCause .parsingError "Failed to parse Turnkey response"
        (.raw "SyntaxError: Unexpected token")) :=
  ⟨rfl, by decide, rfl, rfl, rfl⟩

/-- C4 counterexample: a private scalar hex-decoding to 31 bytes — i.e. a
key member *shorter* than 32 bytes — is not zero-padded: the JWK
conversion rejects it with `CONFIG_ERROR`, and `stamp` surfaces that
failure as `SIGNING_FAILED` (with the `ConfigError` only as its cause),
refuting both the padding clause and the claim that *stamping* rejects
with `ConfigError`. -/
theorem claim_C4_counterexample :
    convertTurnkeyApiKeyToJwk (fun _ => .error "unused") (List.replicate 62 'a')
        ('0' :: '2' :: List.replicate 64 'a') =
      .error (.signer .configError
        "API to JWK conversion failed: Private key must be 32 bytes, got 31") ∧
    ApiKeyStamper.stamp (fun _ => .error "unused") (fun _ => .error "unused")
        (fun _ _ => []) (List.replicate 62 'a') ('0' :: '2' :: List.replicate 64 'a')
        ['m'] =
      .error (.signerCause .signingFailed "Failed to create authentication stamp"
        (.signer .configError
          "API to JWK conversion failed: Private key must be 32 bytes, got 31")) :=
  ⟨rfl, rfl⟩

/-- C4 amended: the coordinate members `x`,`y` are zero-padded to exactly
32 bytes with their big-endian value preserved; the private scalar must
hex-decode to exactly 32 bytes and the compressed public key to exactly
33 bytes, any other length (shorter included) making the JWK conversion
reject with `CONFIG_ERROR`; and `stamp` surfaces every conversion failure
as `SIGNING_FAILED "Failed to create authentication stamp"` with the
`ConfigError` as its cause. -/
theorem claim_C4_amended_member_validation :
    (∀ n, n < 256 ^ 32 →
      (numberToBytesBE n 32).length = 32 ∧ beVal (numberToBytesBE n 32) = n) ∧
    (∀ (dc : Str → Except String (Nat × Nat)) (prvHex pubHex : Str),
      (nodeHexDecode pubHex).length = 33 → (nodeHexDecode prvHex).length ≠ 32 →
      convertTurnkeyApiKeyToJwk dc prvHex pubHex = .error (.signer .configError
        ("API to JWK conversion failed: Private key must be 32 bytes, got "
         ++ toString (nodeHexDecode prvHex).length))) ∧
    (∀ (dc : Str → Except String (Nat × Nat)) (prvHex pubHex : Str),
      (nodeHexDecode pubHex).length ≠ 33 →
      convertTurnkeyApiKeyToJwk dc prvHex pubHex = .error (.signer .configError
        ("API to JWK conversion failed: Public key must be 33 bytes (compressed P-256 format), got "
         ++ toString (nodeHexDecode pubHex).length))) ∧
    (∀ (dc : Str → Except String (Nat × Nat)) (sd : Str → Except String Str)
        (sj : Str → Str → Str) (prv pub msg : Str) (e : JsError),
      convertTurnkeyApiKeyToJwk dc prv pub = .error e →
      ApiKeyStamper.stamp dc sd sj prv pub msg =
        .error (.signerCause .signingFailed "Failed to create authentication stamp" e)) := by
  refine ⟨?_, ?_, ?_, ?_⟩
  · intro n hn
    exact ⟨numberToBytesBE_length hn, beVal_numberToBytesBE n 32⟩
  · intro dc prvHex pubHex hpub hprv
    unfold convertTurnkeyApiKeyToJwk
    rw [if_neg (by simp [hpub]), if_pos hprv]
  · intro dc prvHex pubHex hpub
    unfold convertTurnkeyApiKeyToJwk
    rw [if_pos hpub]
  · intro dc sd sj prv pub msg e h
    unfold ApiKeyStamper.stamp
    rw [h]

/-- C4 witness: concrete instances of the coordinate-padding clause and
the exact-length rejection clause. -/
theorem claim_C4_witness :
    ((numberToBytesBE 5 32).length = 32 ∧ beVal (numberToBytesBE 5 32) = 5) ∧
    convertTurnkeyApiKeyToJwk (fun _ => .error "unused") ['a', 'b']
        ('0' :: '2' :: List.replicate 64 'a') =
      .error (.signer .configError
        "API to JWK conversion failed: Private key must be 32 bytes, got 1") :=
  ⟨claim_C4_amended_member_validation.1 5 (by norm_num),
   claim_C4_amended_member_validation.2.1 (fun _ => .error "unused") ['a', 'b']
     ('0' :: '2' :: List.replicate 64 'a') (by decide) (by decide)⟩

end SolanaSigners
